import Mathlib

/-!
Verification of the paper-management API (assignment 2 of the repository):
a shallow embedding of the database layer (`database.ts`), the validation
middleware (the final variant in `middleware.ts`) and the route handlers
(`routes/papers.ts`, `routes/authors.ts`), together with theorems checking
the behavioural claims of the specification.

Modelling conventions:
* Database rows and ids are modelled with ordinary Lean structures and `Int`
  ids (JavaScript numbers used as autoincrement keys).
* The Prisma calls are modelled denotationally: `findFirst` with
  `orderBy: { id: "asc" }` is `find?` on the id-sorted list, `findMany` with
  `where`/`take`/`skip` is `filter`/`take`/`drop`, `count` is `length`,
  `create` appends a row with the next fresh id, throwing `P2025` on a
  missing row is the `none` branch of a `find?`.
* Prisma's `startsWith`/`endsWith` string filters pass their argument to SQL
  `LIKE` (`ILIKE` under `mode: "insensitive"`) with a `%` appended resp.
  prepended and without escaping `%`/`_` in the argument, so the
  `startsWith/endsWith "%x%"` pair used by `getAllPapers`/`getAllAuthors` is
  modelled by a `LIKE`-pattern matcher over lowercased characters.
* `undefined` and `null` are both modelled by `Option.none` following the
  declared TypeScript types (`AuthorCreateData` etc. use `string | null`).
* JavaScript's `Number(string)` is modelled for optionally-signed decimal
  integer literals; every other string is mapped to `none` and treated like
  `NaN` (it fails the `Number.isInteger` checks exactly as in the source).
-/

namespace PaperMgmt

/-! ### Characters and strings -/

/-- JavaScript whitespace test used by `String.prototype.trim` (restricted to
the common whitespace characters). -/
def isSpaceChar (c : Char) : Bool :=
  c == ' ' || c == '\t' || c == '\n' || c == '\r'

/-- Model of JavaScript `String.prototype.trim`. -/
def jsTrim (s : String) : String :=
  ⟨((s.data.dropWhile isSpaceChar).reverse.dropWhile isSpaceChar).reverse⟩

/-- ASCII lower-casing of one character, as performed by SQL `ILIKE` (and by
Prisma `mode: "insensitive"`). -/
def lowerChar (c : Char) : Char :=
  if 65 ≤ c.toNat ∧ c.toNat ≤ 90 then Char.ofNat (c.toNat + 32) else c

/-- Lower-case a character list. -/
def lowerChars (l : List Char) : List Char := l.map lowerChar

/-- `anySuffix f s` is true when `f` holds on some suffix of `s` (including
`s` itself and the empty suffix). -/
def anySuffix (f : List Char → Bool) : List Char → Bool
  | [] => f []
  | c :: t => f (c :: t) || anySuffix f t

/-- SQL `LIKE` pattern matching: `%` matches any sequence (tried on every
suffix of the subject), `_` any single character, every other pattern
character matches itself. -/
def likeMatch : List Char → List Char → Bool
  | [], s => s.isEmpty
  | p :: ps, s =>
    if p == '%' then
      anySuffix (fun t => likeMatch ps t) s
    else
      match s with
      | [] => false
      | c :: t => if p == '_' then likeMatch ps t else (p == c && likeMatch ps t)

/-- The `where` filter built by `getAllPapers`/`getAllAuthors` for a text
column: `startsWith: "%f%"`, `endsWith: "%f%"`, `mode: "insensitive"`, i.e.
the conjunction of the `ILIKE` patterns `%f%` ++ `%` and `%` ++ `%f%`. -/
def ciLike (f v : String) : Bool :=
  let lf := lowerChars f.data
  let lv := lowerChars v.data
  likeMatch ('%' :: lf ++ ['%', '%']) lv && likeMatch ('%' :: '%' :: lf ++ ['%']) lv

/-- Leading-match test: `needle` is an initial segment of `hay`. -/
def headMatch : List Char → List Char → Bool
  | [], _ => true
  | _ :: _, [] => false
  | a :: as, b :: bs => a == b && headMatch as bs

/-- Contiguous-subsequence test: `needle` occurs somewhere in `hay`. -/
def subMatch : List Char → List Char → Bool
  | needle, [] => headMatch needle []
  | needle, c :: t => headMatch needle (c :: t) || subMatch needle t

/-- `true` when the character list contains no SQL `LIKE` wildcard. -/
def noWild (l : List Char) : Bool :=
  l.all (fun c => !(c == '%') && !(c == '_'))

/-- Case-insensitive substring containment, the specification's reading of
the `publishedIn`/`name`/`affiliation` filters ("case-insensitive substring
match"). -/
def specContainsCI (hay needle : String) : Bool :=
  subMatch (lowerChars needle.data) (lowerChars hay.data)

/-! ### JavaScript numbers -/

/-- Digits-to-value accumulator for `jsNumber`. -/
def digitsVal (l : List Char) : Nat :=
  l.foldl (fun n c => 10 * n + (c.toNat - 48)) 0

/-- Model of JavaScript `Number(string)` restricted to optionally-signed
decimal integer literals (and `Number("") = 0`); any other string is mapped
to `none`, which the validation code treats exactly like `NaN` or a
non-integer (it fails the `Number.isInteger` check). -/
def jsNumber (s : String) : Option Int :=
  match s.data with
  | [] => some 0
  | '-' :: rest =>
    if rest ≠ [] ∧ rest.all Char.isDigit then some (-(digitsVal rest : Int)) else none
  | l =>
    if l.all Char.isDigit then some (digitsVal l : Int) else none

/-- Model of the JavaScript expression `x || d` for a number-or-undefined
`x` (used by the list routes for `limit`/`offset` defaults). -/
def jsOr (v : Option Int) (d : Int) : Int :=
  match v with
  | some n => if n == 0 then d else n
  | none => d

/-! ### Data model (schema.prisma / types.ts) -/

/-- Validated author data passed into the database layer
(`AuthorCreateData` in types.ts); `none` models `null`. -/
structure AuthorCreateData where
  name : String
  email : Option String
  affiliation : Option String
deriving DecidableEq

/-- A row of the `Author` table. -/
structure AuthorRow where
  id : Int
  name : String
  email : Option String
  affiliation : Option String
deriving DecidableEq

/-- A row of the `Paper` table together with its author links
(the implicit many-to-many join table entries for this paper). -/
structure PaperRow where
  id : Int
  title : String
  publishedIn : String
  year : Int
  authorIds : List Int
deriving DecidableEq

/-- Validated paper data passed into the database layer
(`PaperCreateData` in types.ts). -/
structure PaperCreateData where
  title : String
  publishedIn : String
  year : Int
  authors : List AuthorCreateData
deriving DecidableEq

/-- The database state: both tables plus the autoincrement counters. -/
structure Db where
  authors : List AuthorRow
  papers : List PaperRow
  nextAuthorId : Int
  nextPaperId : Int
deriving DecidableEq

/-- An author as returned by the API: the row with its papers included. -/
structure AuthorOut where
  id : Int
  name : String
  email : Option String
  affiliation : Option String
  papers : List PaperRow
deriving DecidableEq

/-- A paper as returned by the API: the row with its authors included. -/
structure PaperOut where
  id : Int
  title : String
  publishedIn : String
  year : Int
  authors : List AuthorRow
deriving DecidableEq

/-! ### Sorting by id (`orderBy: { id: "asc" }`) -/

/-- Id order on author rows. -/
def authorLe (x y : AuthorRow) : Prop := x.id ≤ y.id

instance : DecidableRel authorLe := fun x y => inferInstanceAs (Decidable (x.id ≤ y.id))

instance : IsTotal AuthorRow authorLe := ⟨fun x y => Int.le_total x.id y.id⟩

instance : IsTrans AuthorRow authorLe := ⟨fun _ _ _ h₁ h₂ => le_trans h₁ h₂⟩

/-- Id order on paper rows. -/
def paperLe (x y : PaperRow) : Prop := x.id ≤ y.id

instance : DecidableRel paperLe := fun x y => inferInstanceAs (Decidable (x.id ≤ y.id))

instance : IsTotal PaperRow paperLe := ⟨fun x y => Int.le_total x.id y.id⟩

instance : IsTrans PaperRow paperLe := ⟨fun _ _ _ h₁ h₂ => le_trans h₁ h₂⟩

/-- `orderBy: { id: "asc" }` on the `Author` table. -/
def sortAuthors (l : List AuthorRow) : List AuthorRow := List.insertionSort authorLe l

/-- `orderBy: { id: "asc" }` on the `Paper` table. -/
def sortPapers (l : List PaperRow) : List PaperRow := List.insertionSort paperLe l

/-- `connect: authorIds` on an implicit many-to-many relation: the join rows
form a set; we store them sorted ascending and duplicate-free. -/
def normIds (ids : List Int) : List Int := List.insertionSort (· ≤ ·) ids.dedup

/-! ### Database layer (database.ts) -/

/-- The `where` clause of `findOrCreateAuthorId`'s `findFirst`: all three
fields equal (with `none`, i.e. SQL `NULL`, matching `none`). -/
def authorMatches (a : AuthorCreateData) (r : AuthorRow) : Bool :=
  r.name == a.name && r.email == a.email && r.affiliation == a.affiliation

/-- `findOrCreateAuthorId` (database.ts): return the id of the first
identical author in id order, otherwise create a new author row. -/
def findOrCreateAuthorId (a : AuthorCreateData) (st : Db) : Int × Db :=
  match (sortAuthors st.authors).find? (authorMatches a) with
  | some r => (r.id, st)
  | none =>
    (st.nextAuthorId,
     { st with
        authors := st.authors ++ [⟨st.nextAuthorId, a.name, a.email, a.affiliation⟩],
        nextAuthorId := st.nextAuthorId + 1 })

/-- Resolution of a whole author list (`authors.map(findOrCreateAuthorId)`),
sequenced in list order. -/
def resolveAuthorIds (as : List AuthorCreateData) (st : Db) : List Int × Db :=
  match as with
  | [] => ([], st)
  | a :: rest =>
    let p := findOrCreateAuthorId a st
    let q := resolveAuthorIds rest p.2
    (p.1 :: q.1, q.2)

/-- `include: { authors: { orderBy: { id: "asc" } } }` for one paper. -/
def expandPaper (st : Db) (p : PaperRow) : PaperOut :=
  ⟨p.id, p.title, p.publishedIn, p.year,
   (sortAuthors st.authors).filter (fun a => p.authorIds.contains a.id)⟩

/-- `include: { papers: { orderBy: { id: "asc" } } }` for one author. -/
def expandAuthor (st : Db) (a : AuthorRow) : AuthorOut :=
  ⟨a.id, a.name, a.email, a.affiliation,
   (sortPapers st.papers).filter (fun p => p.authorIds.contains a.id)⟩

/-- `db.createPaper` (database.ts). -/
def createPaper (d : PaperCreateData) (st : Db) : PaperOut × Db :=
  let r := resolveAuthorIds d.authors st
  let st₁ := r.2
  let row : PaperRow := ⟨st₁.nextPaperId, d.title, d.publishedIn, d.year, normIds r.1⟩
  let st₂ := { st₁ with papers := st₁.papers ++ [row], nextPaperId := st₁.nextPaperId + 1 }
  (expandPaper st₂ row, st₂)

/-- `db.getPaperById` (database.ts). -/
def getPaperById (id : Int) (st : Db) : Option PaperOut :=
  (st.papers.find? (fun p => p.id == id)).map (expandPaper st)

/-- `db.getAuthorById` (database.ts). -/
def getAuthorById (id : Int) (st : Db) : Option AuthorOut :=
  (st.authors.find? (fun a => a.id == id)).map (expandAuthor st)

/-- `db.updatePaper` (database.ts): resolve the new author list first, then
update the row, replacing the author links (`set: []`, `connect`); a missing
row (Prisma error `P2025`) is normalised to `none`. -/
def updatePaper (id : Int) (d : PaperCreateData) (st : Db) : Option PaperOut × Db :=
  let r := resolveAuthorIds d.authors st
  let st₁ := r.2
  match st₁.papers.find? (fun p => p.id == id) with
  | none => (none, st₁)
  | some p =>
    let p' : PaperRow :=
      { p with title := d.title, publishedIn := d.publishedIn, year := d.year,
               authorIds := normIds r.1 }
    let st₂ := { st₁ with papers := st₁.papers.map (fun q => if q.id == id then p' else q) }
    (some (expandPaper st₂ p'), st₂)

/-- `db.deleteAuthor` (database.ts): load the author with its papers and
each paper's authors; throw if some paper has exactly one author, otherwise
delete the author row (and, by cascade on the join table, its links). -/
def deleteAuthor (id : Int) (st : Db) : Except String Db :=
  match st.authors.find? (fun a => a.id == id) with
  | none => .ok st
  | some _ =>
    if (st.papers.filter (fun p => p.authorIds.contains id)).any
        (fun p => p.authorIds.length == 1) then
      .error "Cannot delete author: they are the only author of one or more papers"
    else
      .ok { st with
              authors := st.authors.filter (fun r => !(r.id == id)),
              papers := st.papers.map
                (fun p => { p with authorIds := p.authorIds.filter (fun i => !(i == id)) }) }

/-- Filters accepted by `db.getAllPapers` (`GetPapersFilters`). -/
structure GetPapersFilters where
  year : Option Int := none
  publishedIn : Option String := none
  limit : Option Int := none
  offset : Option Int := none
deriving DecidableEq

/-- Result shape of `db.getAllPapers`. -/
structure PapersListOut where
  papers : List PaperOut
  total : Nat
  limit : Int
  offset : Int
deriving DecidableEq

/-- The `where` clause built by `getAllPapers`: the `if (year)` / `if
(publishedIn)` guards are JavaScript truthiness tests, so `0` and `""`
disable the corresponding filter. -/
def paperWhere (year : Option Int) (publishedIn : Option String) (p : PaperRow) : Bool :=
  (match year with
   | some y => if y == 0 then true else p.year == y
   | none => true) &&
  (match publishedIn with
   | some f => if f == "" then true else ciLike f p.publishedIn
   | none => true)

/-- `db.getAllPapers` (database.ts): filter, paginate with
`take`/`skip` (defaults 10/0), and count the filtered rows for `total`. -/
def getAllPapers (filters : GetPapersFilters) (st : Db) : PapersListOut :=
  let limit := filters.limit.getD 10
  let offset := filters.offset.getD 0
  let matching := (sortPapers st.papers).filter (paperWhere filters.year filters.publishedIn)
  { papers := ((matching.drop offset.toNat).take limit.toNat).map (expandPaper st),
    total := matching.length,
    limit := limit,
    offset := offset }

/-- Filters accepted by `db.getAllAuthors` (`GetAuthorsFilters`). -/
structure GetAuthorsFilters where
  name : Option String := none
  affiliation : Option String := none
  limit : Option Int := none
  offset : Option Int := none
deriving DecidableEq

/-- Result shape of `db.getAllAuthors`. -/
structure AuthorsListOut where
  authors : List AuthorOut
  total : Nat
  limit : Int
  offset : Int
deriving DecidableEq

/-- The `where` clause built by `getAllAuthors`. -/
def authorWhere (name affiliation : Option String) (a : AuthorRow) : Bool :=
  (match name with
   | some f => if f == "" then true else ciLike f a.name
   | none => true) &&
  (match affiliation with
   | some f => if f == "" then true else
       match a.affiliation with
       | some v => ciLike f v
       | none => false
   | none => true)

/-- `db.getAllAuthors` (database.ts). -/
def getAllAuthors (filters : GetAuthorsFilters) (st : Db) : AuthorsListOut :=
  let limit := filters.limit.getD 10
  let offset := filters.offset.getD 0
  let matching := (sortAuthors st.authors).filter (authorWhere filters.name filters.affiliation)
  { authors := ((matching.drop offset.toNat).take limit.toNat).map (expandAuthor st),
    total := matching.length,
    limit := limit,
    offset := offset }

/-! ### Request bodies and validation (middleware.ts, final variant) -/

/-- A JSON value supplied for `year`: an integer number or a string.
`Number.isInteger` holds exactly for the integer case; non-integer numbers
are not representable here and every claim only involves integers and
strings. -/
inductive YearVal where
  | int (n : Int) : YearVal
  | str (s : String) : YearVal
deriving DecidableEq

/-- Raw author object in a request body (`AuthorBody`); `none` models a
missing or `null` field. -/
structure AuthorBody where
  name : Option String := none
  email : Option String := none
  affiliation : Option String := none
deriving DecidableEq

/-- Raw paper object in a request body (`PaperBody`). -/
structure PaperBody where
  title : Option String := none
  publishedIn : Option String := none
  year : Option YearVal := none
  authors : Option (List AuthorBody) := none
deriving DecidableEq

/-- The test `x === undefined || x === null || x.trim() === ""` used by the
body validators. -/
def isBlank (o : Option String) : Bool :=
  match o with
  | none => true
  | some s => jsTrim s == ""

/-- The compiled truth table of `!Number.isInteger(year) || year <= 1900`:
a string fails `Number.isInteger` (short-circuiting the comparison) and an
integer is bad exactly when it is at most 1900. -/
def badYear : YearVal → Bool
  | .int n => n ≤ 1900
  | .str _ => true

/-- The per-author name loop of `validatePaperInput`: push
`"Author name is required"` for the first author with a missing/blank name
and `break`. -/
def authorNameScan : List AuthorBody → List String
  | [] => []
  | a :: rest => if isBlank a.name then ["Author name is required"] else authorNameScan rest

/-- `validatePaperInput` (middleware.ts, final variant): the four checks in
source order (title, venue, year, authors), each appending to `errors`. -/
def validatePaperInput (paper : PaperBody) : List String :=
  let errors : List String := []
  let errors := errors ++ (if isBlank paper.title then ["Title is required"] else [])
  let errors := errors ++ (if isBlank paper.publishedIn then ["Published venue is required"] else [])
  let errors := errors ++
    (match paper.year with
     | none => ["Published year is required"]
     | some y => if badYear y then ["Valid year after 1900 is required"] else [])
  let errors := errors ++
    (match paper.authors with
     | none => ["At least one author is required"]
     | some as => if as.length == 0 then ["At least one author is required"] else authorNameScan as)
  errors

/-- `validatePaperInput` (middleware.ts, superseded draft variant): same
checks but with the author scan placed between the title and venue checks;
kept for the record, the served middleware is the final variant. -/
def validatePaperInputDraft (paper : PaperBody) : List String :=
  let errors : List String := []
  let errors := errors ++ (if isBlank paper.title then ["Title is required"] else [])
  let errors := errors ++
    (match paper.authors with
     | none => ["At least one author is required"]
     | some as => if as.length == 0 then ["At least one author is required"] else authorNameScan as)
  let errors := errors ++ (if isBlank paper.publishedIn then ["Published venue is required"] else [])
  let errors := errors ++
    (match paper.year with
     | none => ["Published year is required"]
     | some y => if badYear y then ["Valid year after 1900 is required"] else [])
  errors

/-- `validateAuthorInput` (middleware.ts, final variant). -/
def validateAuthorInput (author : AuthorBody) : List String :=
  if isBlank author.name then ["Name is required"] else []

/-- `validateResourceId` (middleware.ts, final variant): `Number(id)`
followed by `!Number.isInteger(id) || id <= 0`; `none` means the middleware
responds 400 `{error:"Validation Error", message:"Invalid ID format"}` and
the handler is not called. -/
def validateResourceId (s : String) : Option Int :=
  match jsNumber s with
  | none => none
  | some id => if id ≤ 0 then none else some id

/-! ### Query-parameter middleware (final variants) -/

/-- Raw query strings of `GET /api/papers`; `none` is an absent parameter,
`some s` a present one (possibly the empty string). -/
structure RawPaperQuery where
  year : Option String := none
  publishedIn : Option String := none
  limit : Option String := none
  offset : Option String := none
deriving DecidableEq

/-- Parsed query of `GET /api/papers` (`ValidatedPaperQuery`). -/
structure ValidatedPaperQuery where
  year : Option Int := none
  publishedIn : Option String := none
  limit : Option Int := none
  offset : Option Int := none
deriving DecidableEq

/-- Raw query strings of `GET /api/authors`. -/
structure RawAuthorQuery where
  name : Option String := none
  affiliation : Option String := none
  limit : Option String := none
  offset : Option String := none
deriving DecidableEq

/-- Parsed query of `GET /api/authors` (`ValidatedAuthorQuery`). -/
structure ValidatedAuthorQuery where
  name : Option String := none
  affiliation : Option String := none
  limit : Option Int := none
  offset : Option Int := none
deriving DecidableEq

/-- JavaScript truthiness of a possibly-absent query string: `if (params.x)`
is false for an absent parameter and for the empty string. -/
def strTruthy (o : Option String) : Bool :=
  match o with
  | some s => !(s == "")
  | none => false

/-- The `if (params.year) { ... }` block: absent/empty means no filter,
otherwise `Number` the string and throw unless it is an integer `> 1900`.
The outer `none` is the thrown error (a 400 response). -/
def parseYearParam (o : Option String) : Option (Option Int) :=
  if strTruthy o then
    match jsNumber (o.getD "") with
    | none => none
    | some n => if n ≤ 1900 then none else some (some n)
  else some none

/-- The `if (params.limit) { ... }` block: integer in `[1, 100]`. -/
def parseLimitParam (o : Option String) : Option (Option Int) :=
  if strTruthy o then
    match jsNumber (o.getD "") with
    | none => none
    | some n => if n < 1 ∨ 100 < n then none else some (some n)
  else some none

/-- The `if (params.offset) { ... }` block: non-negative integer. -/
def parseOffsetParam (o : Option String) : Option (Option Int) :=
  if strTruthy o then
    match jsNumber (o.getD "") with
    | none => none
    | some n => if n < 0 then none else some (some n)
  else some none

/-- The `if (params.x) parsed.x = params.x` block for the free-text
parameters (`publishedIn`, `name`, `affiliation`). -/
def parseTextParam (o : Option String) : Option String :=
  if strTruthy o then o else none

/-- `validatePaperQueryParams` (middleware.ts, final variant); `none` is the
400 `{error:"Validation Error", message:"Invalid query parameter format"}`
response. -/
def validatePaperQueryParams (q : RawPaperQuery) : Option ValidatedPaperQuery := do
  let year ← parseYearParam q.year
  let publishedIn := parseTextParam q.publishedIn
  let limit ← parseLimitParam q.limit
  let offset ← parseOffsetParam q.offset
  some { year := year, publishedIn := publishedIn, limit := limit, offset := offset }

/-- `validateAuthorQueryParams` (middleware.ts, final variant). -/
def validateAuthorQueryParams (q : RawAuthorQuery) : Option ValidatedAuthorQuery := do
  let name := parseTextParam q.name
  let affiliation := parseTextParam q.affiliation
  let limit ← parseLimitParam q.limit
  let offset ← parseOffsetParam q.offset
  some { name := name, affiliation := affiliation, limit := limit, offset := offset }

/-! ### HTTP responses and routes -/

/-- JSON response bodies produced by the routes. -/
inductive RespBody where
  | emptyBody : RespBody
  | jsonNull : RespBody
  | errBody (error : String) : RespBody
  | errMsgBody (error message : String) : RespBody
  | errMsgsBody (error : String) (messages : List String) : RespBody
  | paperBody (p : PaperOut) : RespBody
  | authorBody (a : AuthorOut) : RespBody
  | papersBody (r : PapersListOut) : RespBody
  | authorsBody (r : AuthorsListOut) : RespBody
deriving DecidableEq

/-- An HTTP response: status code and JSON body. -/
structure HttpResp where
  status : Nat
  body : RespBody
deriving DecidableEq

/-- The 400 response of `validateResourceId`. -/
def invalidIdResp : HttpResp := ⟨400, .errMsgBody "Validation Error" "Invalid ID format"⟩

/-- The 400 response of the query-parameter middleware. -/
def invalidQueryResp : HttpResp :=
  ⟨400, .errMsgBody "Validation Error" "Invalid query parameter format"⟩

/-- The body of the `GET /api/papers/:id` handler, as the ordered list of
`res` send attempts it performs. On a missing paper the handler executes
`res.status(404).json({error:"Paper not found"})` and then — the source has
no `return` on the 404 branch — also `res.json(paper)`, i.e. a second send
of the JSON `null`. -/
def paperByIdSends (id : Int) (st : Db) : List HttpResp :=
  match getPaperById id st with
  | none => [⟨404, .errBody "Paper not found"⟩, ⟨200, .jsonNull⟩]
  | some p => [⟨200, .paperBody p⟩]

/-- `GET /api/papers/:id`: `validateResourceId` middleware, then the
handler. -/
def getPaperByIdRoute (idStr : String) (st : Db) : List HttpResp :=
  match validateResourceId idStr with
  | none => [invalidIdResp]
  | some id => paperByIdSends id st

/-- Express send semantics: only the first send attempt is written to the
wire; every later attempt throws `ERR_HTTP_HEADERS_SENT`, which the
handler's `catch` forwards to the error middleware, which sees
`res.headersSent` and forwards to the terminal handler, which sends
nothing. -/
def committedResponse (sends : List HttpResp) : Option HttpResp := sends.head?

/-- The cast from a validated request body to `PaperCreateData` (the routes
pass `req.body` to the database layer unchanged). -/
def toAuthorCreateData (a : AuthorBody) : AuthorCreateData :=
  ⟨a.name.getD "", a.email, a.affiliation⟩

/-- The body cast for papers. -/
def toPaperCreateData (b : PaperBody) : PaperCreateData :=
  ⟨b.title.getD "", b.publishedIn.getD "",
   (match b.year with | some (.int n) => n | _ => 0),
   (b.authors.getD []).map toAuthorCreateData⟩

/-- `PUT /api/papers/:id` handler (after `validateResourceId`): body
validation, `db.updatePaper`, 404 on `null`. -/
def putPaperRoute (id : Int) (body : PaperBody) (st : Db) : HttpResp × Db :=
  let errors := validatePaperInput body
  if errors.isEmpty then
    let r := updatePaper id (toPaperCreateData body) st
    match r.1 with
    | none => (⟨404, .errBody "Paper not found"⟩, r.2)
    | some p => (⟨200, .paperBody p⟩, r.2)
  else (⟨400, .errMsgsBody "Validation Error" errors⟩, st)

/-- `DELETE /api/authors/:id` handler (after `validateResourceId`): 404 when
the author is absent; `db.deleteAuthor` errors whose message contains
`"only author"` become 400 Constraint Error; other errors reach the
top-level error handler (500). -/
def deleteAuthorRoute (id : Int) (st : Db) : HttpResp × Db :=
  match getAuthorById id st with
  | none => (⟨404, .errBody "Author not found"⟩, st)
  | some _ =>
    match deleteAuthor id st with
    | .ok st' => (⟨204, .emptyBody⟩, st')
    | .error msg =>
      if subMatch "only author".data msg.data then
        (⟨400, .errMsgBody "Constraint Error" msg⟩, st)
      else
        (⟨500, .errMsgBody "Internal Server Error" "An unexpected error occurred"⟩, st)

/-- `GET /api/papers`: query middleware, then
`db.getAllPapers({year, publishedIn, limit: q?.limit || 10,
offset: q?.offset || 0})`. -/
def paperListRoute (q : RawPaperQuery) (st : Db) : HttpResp :=
  match validatePaperQueryParams q with
  | none => invalidQueryResp
  | some pq =>
    ⟨200, .papersBody (getAllPapers
      { year := pq.year, publishedIn := pq.publishedIn,
        limit := some (jsOr pq.limit 10), offset := some (jsOr pq.offset 0) } st)⟩

/-- `GET /api/authors`: query middleware, then `db.getAllAuthors`. -/
def authorListRoute (q : RawAuthorQuery) (st : Db) : HttpResp :=
  match validateAuthorQueryParams q with
  | none => invalidQueryResp
  | some aq =>
    ⟨200, .authorsBody (getAllAuthors
      { name := aq.name, affiliation := aq.affiliation,
        limit := some (jsOr aq.limit 10), offset := some (jsOr aq.offset 0) } st)⟩

/-! ### Specification-side definitions

These follow the wording of the specification (section 4.1 and the testable
properties), to be compared with the source-derived definitions above. -/

/-- Spec step 1: `"Title is required"` for a missing/null/blank title. -/
def titleStep (p : PaperBody) : List String :=
  if isBlank p.title then ["Title is required"] else []

/-- Spec step 2: `"Published venue is required"`. -/
def venueStep (p : PaperBody) : List String :=
  if isBlank p.publishedIn then ["Published venue is required"] else []

/-- Spec step 3: `"Published year is required"` for missing/null, else
`"Valid year after 1900 is required"` when not an integer or `≤ 1900`. -/
def yearStep (p : PaperBody) : List String :=
  match p.year with
  | none => ["Published year is required"]
  | some y => if badYear y then ["Valid year after 1900 is required"] else []

/-- Spec step 4: `"At least one author is required"` for a missing/empty
array, else the per-author name scan. -/
def authorsStep (p : PaperBody) : List String :=
  match p.authors with
  | none => ["At least one author is required"]
  | some as => if as.length == 0 then ["At least one author is required"] else authorNameScan as

/-- A request body with every field missing. -/
def emptyPaperBody : PaperBody := {}

/-! ### Validation theorems -/

/-- The author-name loop produces its message exactly once, when some
author's name is missing/blank. -/
theorem authorNameScan_eq (as : List AuthorBody) :
    authorNameScan as =
      (if as.any (fun a => isBlank a.name) then ["Author name is required"] else []) := by
  induction as with
  | nil => rfl
  | cons a rest ih =>
    by_cases h : isBlank a.name = true
    · simp [authorNameScan, h]
    · simp only [Bool.not_eq_true] at h
      simp [authorNameScan, h, ih]

/-- `validatePaperInput` decomposes as the concatenation of the four
field checks in source order. -/
theorem validatePaperInput_decomp (p : PaperBody) :
    validatePaperInput p = titleStep p ++ venueStep p ++ yearStep p ++ authorsStep p := by
  simp [validatePaperInput, titleStep, venueStep, yearStep, authorsStep]

/-- **C3.** `validatePaperInput` is the concatenation of the four
independent checks in the order title, venue, year, authors; in particular
a body with all four fields missing produces exactly the four "required"
messages in that order. -/
theorem claimC3_validatePaperInput_order :
    (∀ p : PaperBody,
       validatePaperInput p = titleStep p ++ venueStep p ++ yearStep p ++ authorsStep p) ∧
    validatePaperInput emptyPaperBody =
      ["Title is required", "Published venue is required", "Published year is required",
       "At least one author is required"] ∧
    (∀ p : PaperBody, isBlank p.title = true → isBlank p.publishedIn = true →
       p.year = none → (p.authors = none ∨ p.authors = some []) →
       validatePaperInput p =
         ["Title is required", "Published venue is required", "Published year is required",
          "At least one author is required"]) := by
  refine ⟨validatePaperInput_decomp, rfl, ?_⟩
  intro p ht hv hy ha
  rcases ha with ha | ha <;> simp [validatePaperInput, ht, hv, hy, ha]

/-- Witness for C3 at a body with blank title/venue and an empty author
array. -/
theorem claimC3_validatePaperInput_order_witness :
    validatePaperInput ⟨some " ", some "", none, some []⟩ =
      ["Title is required", "Published venue is required", "Published year is required",
       "At least one author is required"] :=
  claimC3_validatePaperInput_order.2.2 ⟨some " ", some "", none, some []⟩
    (by decide) (by decide) rfl (Or.inr rfl)

/-- **C8.** With the other three fields valid, `year = 1900` produces
exactly `["Valid year after 1900 is required"]`, `year = 1901` passes
validation entirely, and a present non-integer year produces the
"valid year" message, not the "required" message. -/
theorem claimC8_year_validation (p : PaperBody) (as : List AuthorBody)
    (ht : isBlank p.title = false) (hv : isBlank p.publishedIn = false)
    (ha : p.authors = some as) (hlen : (as.length == 0) = false)
    (hscan : authorNameScan as = []) :
    (p.year = some (.int 1900) → validatePaperInput p = ["Valid year after 1900 is required"]) ∧
    (p.year = some (.int 1901) → validatePaperInput p = []) ∧
    (∀ s : String, p.year = some (.str s) →
       validatePaperInput p = ["Valid year after 1900 is required"]) := by
  refine ⟨fun hy => ?_, fun hy => ?_, fun s hy => ?_⟩ <;>
    simp [validatePaperInput, ht, hv, ha, hlen, hscan, hy, badYear]

/-- Witness for C8 at a concrete body. -/
theorem claimC8_year_validation_witness :
    validatePaperInput
        ⟨some "T", some "V", some (.int 1900), some [⟨some "A", none, none⟩]⟩ =
      ["Valid year after 1900 is required"] :=
  (claimC8_year_validation
      ⟨some "T", some "V", some (.int 1900), some [⟨some "A", none, none⟩]⟩
      [⟨some "A", none, none⟩] (by decide) (by decide) rfl (by decide) (by decide)).1 rfl

/-- **C9.** For a non-empty author array the message
`"Author name is required"` appears exactly once when some author's name is
missing/blank — however many authors are bad — and never otherwise. -/
theorem claimC9_author_name_scan (p : PaperBody) (as : List AuthorBody)
    (ha : p.authors = some as) (hne : as ≠ []) :
    (validatePaperInput p).count "Author name is required" =
      (if as.any (fun a => isBlank a.name) then 1 else 0) ∧
    ((∀ a ∈ as, isBlank a.name = false) →
       (validatePaperInput p).count "Author name is required" = 0) := by
  have hlen : (as.length == 0) = false := by
    cases as with
    | nil => exact absurd rfl hne
    | cons a t => simp
  have hmain : (validatePaperInput p).count "Author name is required" =
      (if as.any (fun a => isBlank a.name) then 1 else 0) := by
    rw [validatePaperInput_decomp p]
    have h₁ : (titleStep p).count "Author name is required" = 0 := by
      unfold titleStep; split <;> simp
    have h₂ : (venueStep p).count "Author name is required" = 0 := by
      unfold venueStep; split <;> simp
    have h₃ : (yearStep p).count "Author name is required" = 0 := by
      unfold yearStep
      rcases p.year with _ | y
      · simp
      · simp only []
        split <;> simp
    have h₄ : (authorsStep p).count "Author name is required" =
        (if as.any (fun a => isBlank a.name) then 1 else 0) := by
      have hstep : authorsStep p = authorNameScan as := by
        unfold authorsStep
        rw [ha]
        simp [hlen]
      rw [hstep, authorNameScan_eq]
      by_cases hany : as.any (fun a => isBlank a.name) = true
      · simp [hany]
      · simp only [Bool.not_eq_true] at hany
        simp [hany]
    simp [List.count_append, h₁, h₂, h₃, h₄]
  refine ⟨hmain, fun hall => ?_⟩
  rw [hmain]
  have : as.any (fun a => isBlank a.name) = false := by
    simp only [List.any_eq_false]
    intro a haa
    simp [hall a haa]
  simp [this]

/-- Witness for C9 at a concrete body with two bad author names. -/
theorem claimC9_author_name_scan_witness :
    (validatePaperInput
        ⟨some "T", some "V", some (.int 2024),
         some [⟨none, none, none⟩, ⟨some " ", none, none⟩]⟩).count
        "Author name is required" = (if true then 1 else 0) := by
  have h := (claimC9_author_name_scan
      ⟨some "T", some "V", some (.int 2024),
       some [⟨none, none, none⟩, ⟨some " ", none, none⟩]⟩
      [⟨none, none, none⟩, ⟨some " ", none, none⟩] rfl (by decide)).1
  simpa using h

/-! ### Empty query parameters (C10) -/

/-- Replace a present-but-empty query string by an absent one. -/
def emptyToNone (o : Option String) : Option String :=
  match o with
  | some s => if s == "" then none else some s
  | none => none

/-- `strTruthy` does not distinguish `some ""` from `none`. -/
theorem strTruthy_emptyToNone (o : Option String) : strTruthy (emptyToNone o) = strTruthy o := by
  rcases o with _ | s
  · rfl
  · by_cases h : s == ""
    · simp [emptyToNone, strTruthy, h]
    · simp [emptyToNone, strTruthy, h]

/-- When truthy, `emptyToNone` is the identity. -/
theorem emptyToNone_of_truthy (o : Option String) (h : strTruthy o = true) :
    emptyToNone o = o := by
  rcases o with _ | s
  · rfl
  · simp only [strTruthy] at h
    simp [emptyToNone, Bool.not_eq_true', Bool.not_eq_false] at h ⊢
    simp [h]

/-- The year-parameter block treats `some ""` like `none`. -/
theorem parseYearParam_emptyToNone (o : Option String) :
    parseYearParam (emptyToNone o) = parseYearParam o := by
  by_cases h : strTruthy o = true
  · simp [parseYearParam, strTruthy_emptyToNone, h, emptyToNone_of_truthy o h]
  · simp only [Bool.not_eq_true] at h
    simp [parseYearParam, strTruthy_emptyToNone, h]

/-- The limit-parameter block treats `some ""` like `none`. -/
theorem parseLimitParam_emptyToNone (o : Option String) :
    parseLimitParam (emptyToNone o) = parseLimitParam o := by
  by_cases h : strTruthy o = true
  · simp [parseLimitParam, strTruthy_emptyToNone, h, emptyToNone_of_truthy o h]
  · simp only [Bool.not_eq_true] at h
    simp [parseLimitParam, strTruthy_emptyToNone, h]

/-- The offset-parameter block treats `some ""` like `none`. -/
theorem parseOffsetParam_emptyToNone (o : Option String) :
    parseOffsetParam (emptyToNone o) = parseOffsetParam o := by
  by_cases h : strTruthy o = true
  · simp [parseOffsetParam, strTruthy_emptyToNone, h, emptyToNone_of_truthy o h]
  · simp only [Bool.not_eq_true] at h
    simp [parseOffsetParam, strTruthy_emptyToNone, h]

/-- The free-text parameter blocks treat `some ""` like `none`. -/
theorem parseTextParam_emptyToNone (o : Option String) :
    parseTextParam (emptyToNone o) = parseTextParam o := by
  by_cases h : strTruthy o = true
  · simp [parseTextParam, strTruthy_emptyToNone, h, emptyToNone_of_truthy o h]
  · simp only [Bool.not_eq_true] at h
    simp [parseTextParam, strTruthy_emptyToNone, h]

/-- **C10.** A present-but-empty query parameter is treated exactly like an
absent one by the final query middleware variants: the empty numeric
parameters pass validation without any range check, and both middleware
results and the full list-route responses coincide with those of the same
request with the parameter omitted. -/
theorem claimC10_empty_params :
    parseYearParam (some "") = some none ∧
    parseLimitParam (some "") = some none ∧
    parseOffsetParam (some "") = some none ∧
    (∀ q : RawPaperQuery,
       validatePaperQueryParams q =
         validatePaperQueryParams
           ⟨emptyToNone q.year, emptyToNone q.publishedIn, emptyToNone q.limit,
            emptyToNone q.offset⟩) ∧
    (∀ q : RawAuthorQuery,
       validateAuthorQueryParams q =
         validateAuthorQueryParams
           ⟨emptyToNone q.name, emptyToNone q.affiliation, emptyToNone q.limit,
            emptyToNone q.offset⟩) ∧
    (∀ (q : RawPaperQuery) (st : Db),
       paperListRoute q st =
         paperListRoute
           ⟨emptyToNone q.year, emptyToNone q.publishedIn, emptyToNone q.limit,
            emptyToNone q.offset⟩ st) ∧
    (∀ (q : RawAuthorQuery) (st : Db),
       authorListRoute q st =
         authorListRoute
           ⟨emptyToNone q.name, emptyToNone q.affiliation, emptyToNone q.limit,
            emptyToNone q.offset⟩ st) := by
  have hpq : ∀ q : RawPaperQuery,
      validatePaperQueryParams q =
        validatePaperQueryParams
          ⟨emptyToNone q.year, emptyToNone q.publishedIn, emptyToNone q.limit,
           emptyToNone q.offset⟩ := by
    intro q
    simp [validatePaperQueryParams, parseYearParam_emptyToNone, parseLimitParam_emptyToNone,
      parseOffsetParam_emptyToNone, parseTextParam_emptyToNone]
  have haq : ∀ q : RawAuthorQuery,
      validateAuthorQueryParams q =
        validateAuthorQueryParams
          ⟨emptyToNone q.name, emptyToNone q.affiliation, emptyToNone q.limit,
           emptyToNone q.offset⟩ := by
    intro q
    simp [validateAuthorQueryParams, parseLimitParam_emptyToNone,
      parseOffsetParam_emptyToNone, parseTextParam_emptyToNone]
  refine ⟨rfl, rfl, rfl, hpq, haq, fun q st => ?_, fun q st => ?_⟩
  · unfold paperListRoute
    rw [← hpq q]
  · unfold authorListRoute
    rw [← haq q]

/-! ### `GET /api/papers/:id` responses (C7) -/

/-- **C7.** A non-numeric or non-positive `:id` produces the single 400
"Invalid ID format" response for every database state (the handler is never
consulted); a validated id with no matching paper commits exactly the 404
`{error:"Paper not found"}` response — the handler's second `res.json`
attempt (the missing `return`) throws `ERR_HTTP_HEADERS_SENT` and commits
nothing. -/
theorem claimC7_paperById_errors :
    (∀ st : Db, getPaperByIdRoute "abc" st = [invalidIdResp]) ∧
    (∀ st : Db, getPaperByIdRoute "-1" st = [invalidIdResp]) ∧
    (∀ (idStr : String) (n : Int) (st : Db),
       validateResourceId idStr = some n → getPaperById n st = none →
       committedResponse (getPaperByIdRoute idStr st) =
         some ⟨404, .errBody "Paper not found"⟩) := by
  refine ⟨fun st => rfl, fun st => rfl, fun idStr n st hid hpaper => ?_⟩
  simp [getPaperByIdRoute, paperByIdSends, hid, hpaper, committedResponse]

/-- The empty database. -/
def emptyDb : Db := ⟨[], [], 1, 1⟩

/-- Witness for C7: a valid id with no matching paper in the empty
database. -/
theorem claimC7_paperById_errors_witness :
    committedResponse (getPaperByIdRoute "7" emptyDb) =
      some ⟨404, .errBody "Paper not found"⟩ :=
  claimC7_paperById_errors.2.2 "7" 7 emptyDb rfl rfl

/-! ### `LIKE` matcher lemmas (C5) -/

theorem anySuffix_eq_true_iff (f : List Char → Bool) (s : List Char) :
    anySuffix f s = true ↔ ∃ n, f (s.drop n) = true := by
  induction s with
  | nil =>
    simp only [anySuffix]
    constructor
    · intro h; exact ⟨0, h⟩
    · rintro ⟨n, h⟩; rwa [List.drop_nil] at h
  | cons c t ih =>
    simp only [anySuffix, Bool.or_eq_true, ih]
    constructor
    · rintro (h | ⟨n, h⟩)
      · exact ⟨0, h⟩
      · exact ⟨n + 1, h⟩
    · rintro ⟨n, h⟩
      cases n with
      | zero => exact Or.inl h
      | succ n => exact Or.inr ⟨n, h⟩

theorem likeMatch_pct (ps : List Char) (s : List Char) :
    likeMatch ('%' :: ps) s = anySuffix (fun t => likeMatch ps t) s := by
  simp [likeMatch]

theorem likeMatch_one_pct (s : List Char) : likeMatch ['%'] s = true := by
  rw [likeMatch_pct]
  exact (anySuffix_eq_true_iff _ s).mpr ⟨s.length, by simp [likeMatch, List.drop_length]⟩

theorem likeMatch_two_pct (s : List Char) : likeMatch ['%', '%'] s = true := by
  rw [likeMatch_pct]
  exact (anySuffix_eq_true_iff _ s).mpr ⟨0, likeMatch_one_pct s⟩

/-- A wildcard-free pattern segment matches exactly a literal leading
segment of the subject. -/
theorem likeMatch_lit_decomp (lit tp s : List Char) (h : noWild lit = true) :
    likeMatch (lit ++ tp) s = (headMatch lit s && likeMatch tp (s.drop lit.length)) := by
  induction lit generalizing s with
  | nil => simp [headMatch]
  | cons a as ih =>
    have ha : (¬a = '%' ∧ ¬a = '_') ∧ ∀ x ∈ as, ¬x = '%' ∧ ¬x = '_' := by
      simpa [noWild] using h
    have has : noWild as = true := by
      simp only [noWild, List.all_eq_true, Bool.and_eq_true, Bool.not_eq_eq_eq_not,
        Bool.not_true, beq_eq_false_iff_ne]
      exact ha.2
    have hp : (a == '%') = false := by simp [ha.1.1]
    have hu : (a == '_') = false := by simp [ha.1.2]
    cases s with
    | nil => simp [likeMatch, headMatch, hp]
    | cons c t =>
      simp only [List.cons_append, likeMatch, hp, Bool.false_eq_true, if_false, hu,
        headMatch, List.append_eq, ih _ has, List.length_cons, List.drop_succ_cons,
        Bool.and_assoc]

theorem subMatch_eq_true_iff (needle hay : List Char) :
    subMatch needle hay = true ↔ ∃ n, headMatch needle (hay.drop n) = true := by
  induction hay with
  | nil =>
    simp only [subMatch]
    constructor
    · intro h; exact ⟨0, h⟩
    · rintro ⟨n, h⟩; rwa [List.drop_nil] at h
  | cons c t ih =>
    simp only [subMatch, Bool.or_eq_true, ih]
    constructor
    · rintro (h | ⟨n, h⟩)
      · exact ⟨0, h⟩
      · exact ⟨n + 1, h⟩
    · rintro ⟨n, h⟩
      cases n with
      | zero => exact Or.inl h
      | succ n => exact Or.inr ⟨n, h⟩

/-- The `ILIKE` pattern `'%' ++ lit ++ '%' ++ '%'` built by the
`startsWith` side of the filter. -/
theorem likeMatch_pat_one_iff (lit s : List Char) (h : noWild lit = true) :
    likeMatch ('%' :: (lit ++ ['%', '%'])) s = true ↔
      ∃ n, headMatch lit (s.drop n) = true := by
  rw [likeMatch_pct, anySuffix_eq_true_iff]
  constructor
  · rintro ⟨n, hn⟩
    rw [likeMatch_lit_decomp lit ['%', '%'] _ h] at hn
    simp only [Bool.and_eq_true] at hn
    exact ⟨n, hn.1⟩
  · rintro ⟨n, hn⟩
    refine ⟨n, ?_⟩
    rw [likeMatch_lit_decomp lit ['%', '%'] _ h]
    simp [hn, likeMatch_two_pct]

/-- The `ILIKE` pattern `'%' ++ '%' ++ lit ++ '%'` built by the `endsWith`
side of the filter. -/
theorem likeMatch_pat_two_iff (lit s : List Char) (h : noWild lit = true) :
    likeMatch ('%' :: '%' :: (lit ++ ['%'])) s = true ↔
      ∃ n, headMatch lit (s.drop n) = true := by
  rw [likeMatch_pct, anySuffix_eq_true_iff]
  constructor
  · rintro ⟨n, hn⟩
    rw [likeMatch_pct, anySuffix_eq_true_iff] at hn
    obtain ⟨m, hm⟩ := hn
    rw [List.drop_drop] at hm
    rw [likeMatch_lit_decomp lit ['%'] _ h] at hm
    simp only [Bool.and_eq_true] at hm
    exact ⟨n + m, hm.1⟩
  · rintro ⟨n, hn⟩
    refine ⟨0, ?_⟩
    rw [likeMatch_pct, anySuffix_eq_true_iff]
    refine ⟨n, ?_⟩
    rw [likeMatch_lit_decomp lit ['%'] _ h]
    simp [hn, likeMatch_one_pct]

/-- For a wildcard-free filter, the pair of `ILIKE` patterns used by the
database layer is exactly case-blind substring containment. -/
theorem ciLike_eq_specContains (f v : String) (h : noWild (lowerChars f.data) = true) :
    ciLike f v = specContainsCI v f := by
  have h1 := likeMatch_pat_one_iff (lowerChars f.data) (lowerChars v.data) h
  have h2 := likeMatch_pat_two_iff (lowerChars f.data) (lowerChars v.data) h
  have h3 := subMatch_eq_true_iff (lowerChars f.data) (lowerChars v.data)
  rw [Bool.eq_iff_iff]
  unfold ciLike specContainsCI
  simp only [Bool.and_eq_true]
  constructor
  · rintro ⟨ha, _⟩
    exact h3.mpr (h1.mp ha)
  · intro hc
    exact ⟨h1.mpr (h3.mp hc), h2.mpr (h3.mp hc)⟩

/-! Lower-casing cannot introduce a `LIKE` wildcard. -/

theorem charToNat_ofNat (n : Nat) (h : n.isValidChar) : (Char.ofNat n).toNat = n := by
  simp [Char.ofNat, h, Char.ofNatAux, Char.toNat, UInt32.toNat]

theorem lowerChar_eq_wild (c w : Char) (hw : w.toNat < 97) (h : lowerChar c = w) : c = w := by
  unfold lowerChar at h
  split at h
  · exfalso
    rename_i hr
    have hv : (c.toNat + 32).isValidChar := Or.inl (by omega)
    have := congrArg Char.toNat h
    rw [charToNat_ofNat _ hv] at this
    omega
  · exact h

theorem noWild_lowerChars (l : List Char) (h : noWild l = true) :
    noWild (lowerChars l) = true := by
  simp only [noWild, lowerChars, List.all_eq_true, List.mem_map, Bool.and_eq_true,
    Bool.not_eq_eq_eq_not, Bool.not_true, beq_eq_false_iff_ne] at h ⊢
  rintro x ⟨c, hc, rfl⟩
  obtain ⟨h₁, h₂⟩ := h c hc
  constructor
  · intro hx; exact h₁ (lowerChar_eq_wild c '%' (by decide) hx)
  · intro hx; exact h₂ (lowerChar_eq_wild c '_' (by decide) hx)

/-! ### Paper listing (C5, C6) -/

/-- The specification's year filter: exact match when given, no filter
otherwise. -/
def specYearFilter (y : Option Int) (p : PaperRow) : Bool :=
  match y with
  | some n => p.year == n
  | none => true

/-- With a non-empty, wildcard-free filter (and a year filter that is not
the falsy `0`), the `where` clause of `getAllPapers` is the spec predicate:
exact year match and case-insensitive substring containment. -/
theorem paperWhere_eq_spec (y : Option Int) (f : String) (p : PaperRow)
    (hf : (f == "") = false) (hy : ∀ n, y = some n → n ≠ 0)
    (hw : noWild (lowerChars f.data) = true) :
    paperWhere y (some f) p = (specYearFilter y p && specContainsCI p.publishedIn f) := by
  unfold paperWhere specYearFilter
  rcases y with _ | n
  · simp [hf, ciLike_eq_specContains _ _ hw]
  · have hn : (n == 0) = false := by
      simpa using hy n rfl
    simp [hf, hn, ciLike_eq_specContains _ _ hw]

/-- **C5 (amended).** For every non-empty `publishedIn` filter containing
no SQL `LIKE` wildcard (`%`/`_`), `getAllPapers` returns exactly the
papers, inside the pagination window, whose `publishedIn` contains the
filter as a case-insensitive substring, with an exact `year` filter applied
conjunctively when given (any validated year, being `> 1900`, is nonzero). -/
theorem claimC5_publishedIn_filter (f : String) (y lim off : Option Int) (st : Db)
    (hf : (f == "") = false) (hw : noWild f.data = true)
    (hy : ∀ n, y = some n → 1900 < n) :
    (getAllPapers ⟨y, some f, lim, off⟩ st).papers =
      ((((sortPapers st.papers).filter
          (fun p => specYearFilter y p && specContainsCI p.publishedIn f)).drop
        (off.getD 0).toNat).take
        (lim.getD 10).toNat).map (expandPaper st) := by
  have hw' := noWild_lowerChars _ hw
  have hy' : ∀ n, y = some n → n ≠ 0 := by
    intro n hn
    have := hy n hn
    omega
  simp only [getAllPapers]
  rw [List.filter_congr (fun p _ => paperWhere_eq_spec y f p hf hy' hw')]

/-- A one-paper database for the C5 witness. -/
def likeDb : Db := ⟨[⟨1, "John", none, none⟩], [⟨1, "T", "ICSE 2025", 2025, [1]⟩], 2, 2⟩

/-- Witness for C5 at the filter `"icse"`. -/
theorem claimC5_publishedIn_filter_witness :
    (getAllPapers ⟨none, some "icse", none, none⟩ likeDb).papers =
      ((((sortPapers likeDb.papers).filter
          (fun p => specYearFilter none p && specContainsCI p.publishedIn "icse")).drop
        ((none : Option Int).getD 0).toNat).take
        ((none : Option Int).getD 10).toNat).map (expandPaper likeDb) :=
  claimC5_publishedIn_filter "icse" none none none likeDb (by decide) (by decide)
    (fun n hn => by cases hn)

/-- A database refuting the unrestricted claim: the filter `"a%"` matches
the venue `"xa"`. -/
def wildDb : Db := ⟨[⟨1, "A", none, none⟩], [⟨1, "T", "xa", 2024, [1]⟩], 2, 2⟩

/-- **C5 counterexample.** With the filter string `"a%"` the code returns
the paper published in `"xa"`, although `"xa"` does not contain `"a%"` as a
(case-insensitive) substring: the unescaped `%` acts as a `LIKE` wildcard,
so the claim as stated fails. -/
theorem claimC5_counterexample :
    (getAllPapers ⟨none, some "a%", none, none⟩ wildDb).papers.map PaperOut.publishedIn =
        ["xa"] ∧
      specContainsCI "xa" "a%" = false := by
  decide

/-- **C6.** `getAllPapers` with `limit = L ∈ [1,100]`, `offset = F ≥ 0`
returns at most `L` papers and echoes both values; `total` is independent
of `limit`/`offset`; missing `limit`/`offset` fall back to 10/0; the full
route echoes the defaults, and `?limit=1&offset=1` yields at most one paper
with `limit:1, offset:1` echoed. -/
theorem claimC6_pagination (y : Option Int) (pub : Option String) (L F : Int) (st : Db)
    (hL1 : 1 ≤ L) (hL2 : L ≤ 100) (_hF : 0 ≤ F) :
    ((getAllPapers ⟨y, pub, some L, some F⟩ st).papers.length : Int) ≤ L ∧
    (getAllPapers ⟨y, pub, some L, some F⟩ st).limit = L ∧
    (getAllPapers ⟨y, pub, some L, some F⟩ st).offset = F ∧
    (∀ l₁ o₁ l₂ o₂ : Option Int,
       (getAllPapers ⟨y, pub, l₁, o₁⟩ st).total = (getAllPapers ⟨y, pub, l₂, o₂⟩ st).total) ∧
    (getAllPapers ⟨y, pub, none, none⟩ st).limit = 10 ∧
    (getAllPapers ⟨y, pub, none, none⟩ st).offset = 0 ∧
    (∀ st' : Db, ∃ r, paperListRoute ⟨none, none, none, none⟩ st' = ⟨200, .papersBody r⟩ ∧
       r.limit = 10 ∧ r.offset = 0) ∧
    (∀ st' : Db, ∃ r, paperListRoute ⟨none, none, some "1", some "1"⟩ st' =
         ⟨200, .papersBody r⟩ ∧
       r.limit = 1 ∧ r.offset = 1 ∧ r.papers.length ≤ 1) := by
  refine ⟨?_, rfl, rfl, fun l₁ o₁ l₂ o₂ => rfl, rfl, rfl, fun st' => ⟨_, rfl, rfl, rfl⟩,
    fun st' => ⟨_, rfl, rfl, rfl, ?_⟩⟩
  · have hlen : (getAllPapers ⟨y, pub, some L, some F⟩ st).papers.length ≤ L.toNat := by
      simp only [getAllPapers, List.length_map]
      exact List.length_take_le _ _
    calc ((getAllPapers ⟨y, pub, some L, some F⟩ st).papers.length : Int)
        ≤ (L.toNat : Int) := Int.ofNat_le.mpr hlen
      _ = L := Int.toNat_of_nonneg (by omega)
  · simp only [getAllPapers, List.length_map]
    exact le_trans (List.length_take_le _ _) (by decide)

/-- Witness for C6 at `limit = 1`, `offset = 1` over the empty database. -/
theorem claimC6_pagination_witness :
    ((getAllPapers ⟨none, none, some 1, some 1⟩ emptyDb).papers.length : Int) ≤ 1 ∧
    (getAllPapers ⟨none, none, some 1, some 1⟩ emptyDb).limit = 1 ∧
    (getAllPapers ⟨none, none, some 1, some 1⟩ emptyDb).offset = 1 :=
  ⟨(claimC6_pagination none none 1 1 emptyDb (by decide) (by decide) (by decide)).1,
   (claimC6_pagination none none 1 1 emptyDb (by decide) (by decide) (by decide)).2.1,
   (claimC6_pagination none none 1 1 emptyDb (by decide) (by decide) (by decide)).2.2.1⟩

/-! ### Sorted-table lemmas -/

theorem mem_sortAuthors {a : AuthorRow} {l : List AuthorRow} : a ∈ sortAuthors l ↔ a ∈ l :=
  (List.perm_insertionSort authorLe l).mem_iff

theorem sortAuthors_sorted (l : List AuthorRow) : List.Pairwise authorLe (sortAuthors l) :=
  List.sorted_insertionSort authorLe l

/-- `find?` on an id-sorted list returns an element whose id is minimal
among all matches. -/
theorem sorted_find?_min {l : List AuthorRow} {p : AuthorRow → Bool} {x : AuthorRow}
    (hs : List.Pairwise authorLe l) (hfind : l.find? p = some x) :
    ∀ y ∈ l, p y = true → x.id ≤ y.id := by
  induction l with
  | nil => cases hfind
  | cons a t ih =>
    obtain ⟨hall, htail⟩ := List.pairwise_cons.mp hs
    by_cases hpa : p a = true
    · rw [List.find?_cons_of_pos _ hpa] at hfind
      cases hfind
      intro y hy hpy
      rcases List.mem_cons.mp hy with rfl | hyt
      · exact le_refl _
      · exact hall y hyt
    · rw [List.find?_cons_of_neg _ hpa] at hfind
      intro y hy hpy
      rcases List.mem_cons.mp hy with rfl | hyt
      · exact absurd hpy hpa
      · exact ih htail hfind y hyt hpy

/-! ### Find-or-create dedup (C1) -/

/-- Resolving authors never touches the `Paper` table. -/
theorem resolve_papers_eq (bs : List AuthorCreateData) (st : Db) :
    (resolveAuthorIds bs st).2.papers = st.papers := by
  induction bs generalizing st with
  | nil => rfl
  | cons b rest ih =>
    simp only [resolveAuthorIds]
    rw [ih]
    unfold findOrCreateAuthorId
    cases hfind : (sortAuthors st.authors).find? (authorMatches b) <;> rfl

/-- A `findOrCreateAuthorId` step for `b` keeps the number of rows matching
`a` whenever at least one row already matches `a`. -/
theorem countMatch_preserved (a b : AuthorCreateData) (st : Db)
    (h : 0 < st.authors.countP (fun r => authorMatches a r)) :
    (findOrCreateAuthorId b st).2.authors.countP (fun r => authorMatches a r) =
      st.authors.countP (fun r => authorMatches a r) := by
  unfold findOrCreateAuthorId
  cases hfind : (sortAuthors st.authors).find? (authorMatches b) with
  | some r => rfl
  | none =>
    simp only [List.countP_append]
    have hrow : authorMatches a ⟨st.nextAuthorId, b.name, b.email, b.affiliation⟩ = false := by
      rw [Bool.eq_false_iff]
      intro hx
      have htr : b.name = a.name ∧ b.email = a.email ∧ b.affiliation = a.affiliation := by
        have hx' := hx
        simp only [authorMatches, Bool.and_eq_true, beq_iff_eq] at hx'
        exact ⟨hx'.1.1, hx'.1.2, hx'.2⟩
      obtain ⟨x, hxmem, hxp⟩ := List.countP_pos_iff.mp h
      have hbx : authorMatches b x = true := by
        simp only [authorMatches, Bool.and_eq_true, beq_iff_eq] at hxp ⊢
        exact ⟨⟨hxp.1.1.trans htr.1.symm, hxp.1.2.trans htr.2.1.symm⟩,
          hxp.2.trans htr.2.2.symm⟩
      exact List.find?_eq_none.mp hfind x (mem_sortAuthors.mpr hxmem) hbx
    simp [List.countP_cons, hrow]

/-- Resolving a list of authors keeps the matching-row count when it is
already positive. -/
theorem countMatch_resolve_preserved (a : AuthorCreateData) (bs : List AuthorCreateData)
    (st : Db) (h : 0 < st.authors.countP (fun r => authorMatches a r)) :
    (resolveAuthorIds bs st).2.authors.countP (fun r => authorMatches a r) =
      st.authors.countP (fun r => authorMatches a r) := by
  induction bs generalizing st with
  | nil => rfl
  | cons b rest ih =>
    simp only [resolveAuthorIds]
    have hstep := countMatch_preserved a b st h
    have hpos : 0 < (findOrCreateAuthorId b st).2.authors.countP
        (fun r => authorMatches a r) := by
      rw [hstep]; exact h
    rw [ih _ hpos, hstep]

/-- Resolving a list that contains `a`, starting with no matching row,
creates exactly one matching row. -/
theorem countMatch_resolve_creates (a : AuthorCreateData) (bs : List AuthorCreateData)
    (st : Db) (h0 : st.authors.countP (fun r => authorMatches a r) = 0) (hmem : a ∈ bs) :
    (resolveAuthorIds bs st).2.authors.countP (fun r => authorMatches a r) = 1 := by
  induction bs generalizing st with
  | nil => cases hmem
  | cons b rest ih =>
    simp only [resolveAuthorIds]
    by_cases htrip : (b.name == a.name && b.email == a.email &&
        b.affiliation == a.affiliation) = true
    · have hfind : (sortAuthors st.authors).find? (authorMatches b) = none := by
        apply List.find?_eq_none.mpr
        intro x hx hbx
        have htr : b.name = a.name ∧ b.email = a.email ∧ b.affiliation = a.affiliation := by
          have h' := htrip
          simp only [Bool.and_eq_true, beq_iff_eq] at h'
          exact ⟨h'.1.1, h'.1.2, h'.2⟩
        have hax : authorMatches a x = true := by
          simp only [authorMatches, Bool.and_eq_true, beq_iff_eq] at hbx ⊢
          exact ⟨⟨hbx.1.1.trans htr.1, hbx.1.2.trans htr.2.1⟩, hbx.2.trans htr.2.2⟩
        have hpos : 0 < st.authors.countP (fun r => authorMatches a r) :=
          List.countP_pos_iff.mpr ⟨x, mem_sortAuthors.mp hx, hax⟩
        omega
      have hred : findOrCreateAuthorId b st = (st.nextAuthorId,
          { st with
              authors := st.authors ++ [⟨st.nextAuthorId, b.name, b.email, b.affiliation⟩],
              nextAuthorId := st.nextAuthorId + 1 }) := by
        unfold findOrCreateAuthorId; rw [hfind]
      rw [hred]
      have hrow : authorMatches a ⟨st.nextAuthorId, b.name, b.email, b.affiliation⟩ = true :=
        htrip
      have h1 : (st.authors ++
          [(⟨st.nextAuthorId, b.name, b.email, b.affiliation⟩ : AuthorRow)]).countP
            (fun r => authorMatches a r) = 1 := by
        simp [List.countP_append, h0, List.countP_cons, hrow]
      have hpos1 : 0 < (st.authors ++
          [(⟨st.nextAuthorId, b.name, b.email, b.affiliation⟩ : AuthorRow)]).countP
            (fun r => authorMatches a r) := by
        rw [h1]; omega
      rw [countMatch_resolve_preserved a rest _ hpos1]
      exact h1
    · have hmem' : a ∈ rest := by
        rcases List.mem_cons.mp hmem with rfl | h'
        · exact absurd (by simp) htrip
        · exact h'
      have hstep : (findOrCreateAuthorId b st).2.authors.countP
          (fun r => authorMatches a r) = 0 := by
        unfold findOrCreateAuthorId
        cases hfind : (sortAuthors st.authors).find? (authorMatches b) with
        | some r => exact h0
        | none =>
          have hrow : authorMatches a ⟨st.nextAuthorId, b.name, b.email, b.affiliation⟩
              = false := Bool.eq_false_iff.mpr (fun hx => htrip hx)
          simp [List.countP_append, h0, List.countP_cons, hrow]
      exact ih _ hstep hmem'

/-- **C1.** `findOrCreateAuthorId` reuses an existing row exactly when all
of `name`, `email`, `affiliation` match; among several matches the one with
the lowest id is returned; a fresh row is created only when no row matches;
hence two `createPaper` calls supplying an identical author leave exactly
one matching author row. -/
theorem claimC1_findOrCreateAuthorId_dedup :
    (∀ (a : AuthorCreateData) (st : Db) (r : AuthorRow), r ∈ st.authors →
       authorMatches a r = true →
       (findOrCreateAuthorId a st).2 = st ∧
       ∃ r₀ ∈ st.authors, authorMatches a r₀ = true ∧
         (findOrCreateAuthorId a st).1 = r₀.id ∧
         ∀ r₁ ∈ st.authors, authorMatches a r₁ = true → r₀.id ≤ r₁.id) ∧
    (∀ (a : AuthorCreateData) (st : Db),
       (∀ r ∈ st.authors, authorMatches a r = false) →
       (findOrCreateAuthorId a st).1 = st.nextAuthorId ∧
       (findOrCreateAuthorId a st).2.authors =
         st.authors ++ [⟨st.nextAuthorId, a.name, a.email, a.affiliation⟩]) ∧
    (∀ (d₁ d₂ : PaperCreateData) (a : AuthorCreateData) (st : Db),
       a ∈ d₁.authors → a ∈ d₂.authors →
       st.authors.countP (fun r => authorMatches a r) = 0 →
       ((createPaper d₂ (createPaper d₁ st).2).2).authors.countP
         (fun r => authorMatches a r) = 1) := by
  refine ⟨?_, ?_, ?_⟩
  · intro a st r hr hm
    cases hfind : (sortAuthors st.authors).find? (authorMatches a) with
    | none =>
      exact absurd hm (List.find?_eq_none.mp hfind r (mem_sortAuthors.mpr hr))
    | some r₀ =>
      have hred : findOrCreateAuthorId a st = (r₀.id, st) := by
        unfold findOrCreateAuthorId; rw [hfind]
      refine ⟨by rw [hred], r₀, mem_sortAuthors.mp (List.mem_of_find?_eq_some hfind),
        List.find?_some hfind, by rw [hred], ?_⟩
      intro r₁ h₁ hm₁
      exact sorted_find?_min (sortAuthors_sorted _) hfind r₁ (mem_sortAuthors.mpr h₁) hm₁
  · intro a st hnone
    have hfind : (sortAuthors st.authors).find? (authorMatches a) = none :=
      List.find?_eq_none.mpr (fun x hx => by simp [hnone x (mem_sortAuthors.mp hx)])
    have hred : findOrCreateAuthorId a st = (st.nextAuthorId,
        { st with
            authors := st.authors ++ [⟨st.nextAuthorId, a.name, a.email, a.affiliation⟩],
            nextAuthorId := st.nextAuthorId + 1 }) := by
      unfold findOrCreateAuthorId; rw [hfind]
    exact ⟨by rw [hred], by rw [hred]⟩
  · intro d₁ d₂ a st h1 h2 h0
    have hc1 : (createPaper d₁ st).2.authors = (resolveAuthorIds d₁.authors st).2.authors := rfl
    have after1 : (createPaper d₁ st).2.authors.countP (fun r => authorMatches a r) = 1 := by
      rw [hc1]
      exact countMatch_resolve_creates a d₁.authors st h0 h1
    have hc2 : (createPaper d₂ (createPaper d₁ st).2).2.authors =
        (resolveAuthorIds d₂.authors (createPaper d₁ st).2).2.authors := rfl
    rw [hc2, countMatch_resolve_preserved a d₂.authors _ (by rw [after1]; omega), after1]

/-- A table with two rows identical up to id, for the C1 witness. -/
def dupDb : Db := ⟨[⟨2, "A", none, none⟩, ⟨1, "A", none, none⟩], [], 3, 1⟩

/-- A one-author paper payload for the C1 witness. -/
def onePd : PaperCreateData := ⟨"T", "V", 2024, [⟨"A", none, none⟩]⟩

/-- Witness for C1: reuse leaves the state unchanged, and two identical
paper creations leave exactly one matching author row. -/
theorem claimC1_findOrCreateAuthorId_dedup_witness :
    (findOrCreateAuthorId ⟨"A", none, none⟩ dupDb).2 = dupDb ∧
    ((createPaper onePd (createPaper onePd emptyDb).2).2).authors.countP
      (fun r => authorMatches ⟨"A", none, none⟩ r) = 1 :=
  ⟨(claimC1_findOrCreateAuthorId_dedup.1 ⟨"A", none, none⟩ dupDb ⟨2, "A", none, none⟩
      (by decide) (by decide)).1,
   claimC1_findOrCreateAuthorId_dedup.2.2 onePd onePd ⟨"A", none, none⟩ emptyDb
      (by decide) (by decide) (by decide)⟩

/-! ### Author deletion guard (C2) -/

/-- **C2.** When an existing author is the sole author of some paper,
`deleteAuthor` throws the constraint error and nothing changes — the route
answers 400 Constraint Error with the unchanged state, and the author is
still retrievable; when no paper would be orphaned the deletion succeeds
with 204 and the author is gone. -/
theorem claimC2_deleteAuthor_soleGuard :
    (∀ (st : Db) (id : Int) (r : AuthorRow),
       st.authors.find? (fun a => a.id == id) = some r →
       (∃ p ∈ st.papers, p.authorIds.contains id = true ∧ p.authorIds.length = 1) →
       deleteAuthor id st =
         .error "Cannot delete author: they are the only author of one or more papers" ∧
       deleteAuthorRoute id st =
         (⟨400, .errMsgBody "Constraint Error"
             "Cannot delete author: they are the only author of one or more papers"⟩, st) ∧
       (getAuthorById id (deleteAuthorRoute id st).2).isSome = true) ∧
    (∀ (st : Db) (id : Int) (r : AuthorRow),
       st.authors.find? (fun a => a.id == id) = some r →
       (∀ p ∈ st.papers, p.authorIds.contains id = true → p.authorIds.length ≠ 1) →
       ∃ st', deleteAuthor id st = .ok st' ∧
         deleteAuthorRoute id st = (⟨204, .emptyBody⟩, st') ∧
         getAuthorById id st' = none) := by
  constructor
  · intro st id r hfind hsole
    have hget : getAuthorById id st = some (expandAuthor st r) := by
      unfold getAuthorById; rw [hfind]; rfl
    have hany : ((st.papers.filter (fun p => p.authorIds.contains id)).any
        (fun p => p.authorIds.length == 1)) = true := by
      rw [List.any_eq_true]
      obtain ⟨p, hp, hc, hl⟩ := hsole
      exact ⟨p, List.mem_filter.mpr ⟨hp, hc⟩, by simp [hl]⟩
    have hdel : deleteAuthor id st =
        .error "Cannot delete author: they are the only author of one or more papers" := by
      unfold deleteAuthor
      simp only [hfind]
      rw [if_pos hany]
    have hsub : subMatch "only author".data
        "Cannot delete author: they are the only author of one or more papers".data = true := by
      decide
    have hroute : deleteAuthorRoute id st =
        (⟨400, .errMsgBody "Constraint Error"
            "Cannot delete author: they are the only author of one or more papers"⟩, st) := by
      unfold deleteAuthorRoute
      rw [hget]
      simp [hdel, hsub]
    exact ⟨hdel, hroute, by rw [hroute, hget]; rfl⟩
  · intro st id r hfind hguard
    have hget : getAuthorById id st = some (expandAuthor st r) := by
      unfold getAuthorById; rw [hfind]; rfl
    have hany : ((st.papers.filter (fun p => p.authorIds.contains id)).any
        (fun p => p.authorIds.length == 1)) = false := by
      rw [List.any_eq_false]
      intro p hp hbeq
      obtain ⟨hpm, hpc⟩ := List.mem_filter.mp hp
      exact hguard p hpm hpc (by simpa using hbeq)
    have hdel : deleteAuthor id st = .ok
        { st with
            authors := st.authors.filter (fun q => !(q.id == id)),
            papers := st.papers.map
              (fun p => { p with authorIds := p.authorIds.filter (fun i => !(i == id)) }) } := by
      unfold deleteAuthor
      simp only [hfind]
      rw [if_neg (by simp only [hany]; exact Bool.false_ne_true)]
    refine ⟨_, hdel, ?_, ?_⟩
    · unfold deleteAuthorRoute
      rw [hget]
      simp [hdel]
    · unfold getAuthorById
      rw [List.find?_eq_none.mpr ?_]
      · rfl
      · intro x hx
        have := (List.mem_filter.mp hx).2
        simp only [Bool.not_eq_eq_eq_not, Bool.not_true, beq_eq_false_iff_ne] at this
        simp [this]

/-- A two-author, two-paper database: author 1 is the sole author of paper
1; author 2 shares paper 2 with author 1. -/
def guardDb : Db :=
  ⟨[⟨1, "A", none, none⟩, ⟨2, "B", none, none⟩],
   [⟨1, "T", "V", 2024, [1]⟩, ⟨2, "U", "W", 2024, [1, 2]⟩], 3, 3⟩

/-- Witness for C2: deleting the sole author fails and keeps the author;
deleting the non-sole author succeeds and removes them. -/
theorem claimC2_deleteAuthor_soleGuard_witness :
    (deleteAuthor 1 guardDb =
       .error "Cannot delete author: they are the only author of one or more papers" ∧
     (getAuthorById 1 (deleteAuthorRoute 1 guardDb).2).isSome = true) ∧
    (∃ st', deleteAuthor 2 guardDb = .ok st' ∧
       deleteAuthorRoute 2 guardDb = (⟨204, .emptyBody⟩, st') ∧
       getAuthorById 2 st' = none) :=
  ⟨⟨(claimC2_deleteAuthor_soleGuard.1 guardDb 1 ⟨1, "A", none, none⟩
        (by decide) (by decide)).1,
    (claimC2_deleteAuthor_soleGuard.1 guardDb 1 ⟨1, "A", none, none⟩
        (by decide) (by decide)).2.2⟩,
   claimC2_deleteAuthor_soleGuard.2 guardDb 2 ⟨2, "B", none, none⟩
      (by decide) (by decide)⟩

/-! ### Full author replacement on update (C4) -/

/-- Membership in the connected id set is membership in the resolved
list. -/
theorem mem_normIds {aid : Int} {ids : List Int} : aid ∈ normIds ids ↔ aid ∈ ids := by
  unfold normIds
  rw [(List.perm_insertionSort _ _).mem_iff, List.mem_dedup]

/-- **C4.** `updatePaper` replaces the paper's entire author set with
exactly the ids resolved (find-or-create) from the new author list and
updates the editable fields; a missing paper id yields `none` (no
exception), which the PUT route turns into a 404. -/
theorem claimC4_updatePaper_replaces :
    (∀ (st : Db) (id : Int) (d : PaperCreateData) (p : PaperRow),
       st.papers.find? (fun q => q.id == id) = some p →
       ∃ out st', updatePaper id d st = (some out, st') ∧
         out.title = d.title ∧ out.publishedIn = d.publishedIn ∧ out.year = d.year ∧
         ∃ q ∈ st'.papers, q.id = p.id ∧
           q.authorIds = normIds (resolveAuthorIds d.authors st).1 ∧
           ∀ aid : Int, aid ∈ q.authorIds ↔ aid ∈ (resolveAuthorIds d.authors st).1) ∧
    (∀ (st : Db) (id : Int) (d : PaperCreateData),
       st.papers.find? (fun q => q.id == id) = none → (updatePaper id d st).1 = none) ∧
    (∀ (st : Db) (id : Int) (body : PaperBody),
       validatePaperInput body = [] →
       st.papers.find? (fun q => q.id == id) = none →
       (putPaperRoute id body st).1 = ⟨404, .errBody "Paper not found"⟩) := by
  have hnone : ∀ (st : Db) (id : Int) (d : PaperCreateData),
      st.papers.find? (fun q => q.id == id) = none → (updatePaper id d st).1 = none := by
    intro st id d hfind
    unfold updatePaper
    simp only [resolve_papers_eq, hfind]
  refine ⟨?_, hnone, ?_⟩
  · intro st id d p hfind
    have hpred : (p.id == id) = true := by simpa using List.find?_some hfind
    have hmem : p ∈ st.papers := List.mem_of_find?_eq_some hfind
    unfold updatePaper
    simp only [resolve_papers_eq, hfind]
    have hq : ∀ aid : Int,
        aid ∈ (normIds (resolveAuthorIds d.authors st).1) ↔
          aid ∈ (resolveAuthorIds d.authors st).1 := fun aid => mem_normIds
    have hqmem :
        ({ p with title := d.title, publishedIn := d.publishedIn, year := d.year, authorIds := normIds (resolveAuthorIds d.authors st).1 } : PaperRow) ∈
          st.papers.map (fun q => if q.id == id then
            { p with title := d.title, publishedIn := d.publishedIn, year := d.year, authorIds := normIds (resolveAuthorIds d.authors st).1 } else q) :=
      List.mem_map.mpr ⟨p, hmem, by simp [hpred]⟩
    exact ⟨_, _, rfl, rfl, rfl, rfl,
      { p with title := d.title, publishedIn := d.publishedIn, year := d.year, authorIds := normIds (resolveAuthorIds d.authors st).1 },
      hqmem, rfl, rfl, hq⟩
  · intro st id body hval hfind
    have h404 := hnone st id (toPaperCreateData body) hfind
    unfold putPaperRoute
    rw [hval]
    simp only [List.isEmpty_nil, if_true, h404]

/-- A one-paper database for the C4 witness. -/
def updDb : Db := ⟨[⟨1, "A", none, none⟩], [⟨1, "T", "V", 2024, [1]⟩], 2, 2⟩

/-- Witness for C4: a successful full-replace update, and a 404 from the
PUT route for a missing id. -/
theorem claimC4_updatePaper_replaces_witness :
    (∃ out st', updatePaper 1 ⟨"T2", "V2", 2025, [⟨"B", none, none⟩]⟩ updDb =
        (some out, st') ∧
      out.title = "T2" ∧ out.publishedIn = "V2" ∧ out.year = 2025 ∧
      ∃ q ∈ st'.papers, q.id = 1 ∧
        q.authorIds = normIds (resolveAuthorIds [⟨"B", none, none⟩] updDb).1 ∧
        ∀ aid : Int, aid ∈ q.authorIds ↔
          aid ∈ (resolveAuthorIds [⟨"B", none, none⟩] updDb).1) ∧
    (putPaperRoute 99 ⟨some "T", some "V", some (.int 2024), some [⟨some "A", none, none⟩]⟩
        updDb).1 = ⟨404, .errBody "Paper not found"⟩ :=
  ⟨claimC4_updatePaper_replaces.1 updDb 1 ⟨"T2", "V2", 2025, [⟨"B", none, none⟩]⟩
      ⟨1, "T", "V", 2024, [1]⟩ (by decide),
   claimC4_updatePaper_replaces.2.2 updDb 99
      ⟨some "T", some "V", some (.int 2024), some [⟨some "A", none, none⟩]⟩
      (by decide) (by decide)⟩

end PaperMgmt

